import Mathlib

/-!
Verification of the codemux terminal-client core: the grid reconciliation
store (`src/app/src/stores/terminalStore.ts`), the client input encoding
(`src/app/src/components/Terminal.tsx`), and the reconnecting WebSocket
transport (`src/expo-app/src/hooks/useWebSocketWithReconnect.ts`).

The TypeScript code is embedded shallowly: the zustand store becomes a
record `TerminalState` with explicit state-passing actions, the JS `Map`
keyed by the string `` `${row}-${col}` `` becomes an association list keyed
by the pair `(row, col)` (the string encoding is injective on naturals, so
the pair key is observationally the same), and the transport's mutable refs
become a record `TransportState` driven by an explicit event step function.
-/

set_option maxHeartbeats 1000000

/-- Terminal color descriptor, from `TerminalColor` in terminalStore.ts.
In TS `Rgb` carries an object `{r, g, b}`. -/
inductive TerminalColor where
  | Default
  | Indexed (n : Nat)
  | Palette (n : Nat)
  | Rgb (r g b : Nat)
deriving DecidableEq, Repr

/-- A grid cell, from `GridCell` in terminalStore.ts.  `fg_color`/`bg_color`
are `TerminalColor | null` in TS, embedded as `Option TerminalColor` with
`none` for `null`.  `has_cursor` is an optional field in TS; an absent field
and `false` are indistinguishable in every use (all reads are truthiness
tests), so it is embedded as a plain `Bool` defaulting to `false`. -/
structure GridCell where
  char : String
  fg_color : Option TerminalColor
  bg_color : Option TerminalColor
  bold : Bool
  italic : Bool
  underline : Bool
  reverse : Bool
  has_cursor : Bool := false
deriving DecidableEq, Repr

/-- Terminal theme, from `TerminalTheme` in terminalStore.ts. -/
structure TerminalTheme where
  name : String
  background : String
  foreground : String
  cursor : String
  selection : String
  colors : List String
deriving DecidableEq, Repr

/-- `defaultTheme` from terminalStore.ts. -/
def defaultTheme : TerminalTheme :=
  { name := "Default Dark"
    background := "#0d1117"
    foreground := "#c9d1d9"
    cursor := "#58a6ff"
    selection := "#264f78"
    colors := ["#000000", "#cd3131", "#0dbc79", "#e5e510",
               "#2472c8", "#bc3fbc", "#11a8cd", "#e5e5e5",
               "#666666", "#f14c4c", "#23d18b", "#f5f543",
               "#3b8eea", "#d670d6", "#29b8db", "#ffffff"] }

/-- Cell-map key: the store keys its JS `Map` by the string
`` `${row}-${col}` ``, which is injective on pairs of naturals, so the key is
embedded as the pair itself. -/
abbrev Pos := Nat × Nat

/-- `Map.prototype.get` on the cell map. -/
def cellsGet : List (Pos × GridCell) → Pos → Option GridCell
  | [], _ => none
  | e :: t, p => if e.fst = p then some e.snd else cellsGet t p

/-- `Map.prototype.set` on the cell map: replace the entry with this key in
place if present, else append (JS `Map` insertion-order semantics). -/
def cellsSet : List (Pos × GridCell) → Pos → GridCell → List (Pos × GridCell)
  | [], p, c => [(p, c)]
  | e :: t, p, c => if e.fst = p then (p, c) :: t else e :: cellsSet t p c

/-- Whether the cell stored at `p` (if any) carries the cursor overlay
(`has_cursor`). -/
def overlayAt (cs : List (Pos × GridCell)) (p : Pos) : Bool :=
  match cellsGet cs p with
  | some c => c.has_cursor
  | none => false

/-- The blank default cell inlined at terminalStore.ts lines 164-172 and
255-263 (space character, null colors, all style flags false). -/
def blankCell : GridCell :=
  { char := " "
    fg_color := none
    bg_color := none
    bold := false
    italic := false
    underline := false
    reverse := false }

/-- Grid size `{rows, cols}`. -/
structure Size where
  rows : Nat
  cols : Nat
deriving DecidableEq, Repr

/-- Cursor position `{row, col}`. -/
structure Cursor where
  row : Nat
  col : Nat
deriving DecidableEq, Repr

/-- The store state, from `TerminalState` in terminalStore.ts (the data
fields; the actions are the functions below, taking the state explicitly). -/
structure TerminalState where
  size : Size
  cells : List (Pos × GridCell)
  cursor : Cursor
  cursor_visible : Bool
  theme : TerminalTheme
deriving DecidableEq, Repr

/-- The store's initial state (terminalStore.ts lines 128-132). -/
def initialTerminalState : TerminalState :=
  { size := { rows := 24, cols := 80 }
    cells := []
    cursor := { row := 0, col := 0 }
    cursor_visible := true
    theme := defaultTheme }

/-- `updateSize` action. -/
def updateSize (rows cols : Nat) (st : TerminalState) : TerminalState :=
  { st with size := { rows := rows, cols := cols } }

/-- `updateCell` action. -/
def updateCell (row col : Nat) (cell : GridCell) (st : TerminalState) : TerminalState :=
  { st with cells := cellsSet st.cells (row, col) cell }

/-- `updateCells` action. -/
def updateCells (updates : List (Nat × Nat × GridCell)) (st : TerminalState) : TerminalState :=
  { st with cells := updates.foldl (fun m e => cellsSet m (e.fst, e.snd.fst) e.snd.snd) st.cells }

/-- `updateCursor` action (terminalStore.ts lines 152-182): clear the
overlay at the old cursor cell if it was set there, then, if the cursor is
visible, set the overlay on the cell at the new position, inserting the
blank default cell when absent; finally store the new coordinates. -/
def updateCursor (row col : Nat) (st : TerminalState) : TerminalState :=
  let oldKey : Pos := (st.cursor.row, st.cursor.col)
  let cells1 :=
    match cellsGet st.cells oldKey with
    | some oldCell =>
        if oldCell.has_cursor then cellsSet st.cells oldKey { oldCell with has_cursor := false }
        else st.cells
    | none => st.cells
  let newKey : Pos := (row, col)
  let newCell := (cellsGet cells1 newKey).getD blankCell
  let cells2 :=
    if st.cursor_visible then cellsSet cells1 newKey { newCell with has_cursor := true }
    else cells1
  { st with cursor := { row := row, col := col }, cells := cells2 }

/-- `setCursorVisible` action (terminalStore.ts lines 184-197): write the
visibility flag into `has_cursor` of the cell at the current cursor
position, if such a cell exists. -/
def setCursorVisible (visible : Bool) (st : TerminalState) : TerminalState :=
  let key : Pos := (st.cursor.row, st.cursor.col)
  let cells1 :=
    match cellsGet st.cells key with
    | some c => cellsSet st.cells key { c with has_cursor := visible }
    | none => st.cells
  { st with cursor_visible := visible, cells := cells1 }

/-- `clearCells` action. -/
def clearCells (st : TerminalState) : TerminalState :=
  { st with cells := [] }

/-- `setTheme` action. -/
def setTheme (theme : TerminalTheme) (st : TerminalState) : TerminalState :=
  { st with theme := theme }

/-- A partial cell on the wire: every field optional (the `any`-typed cell
payload read at terminalStore.ts lines 222-230).  In TS `cell.fg_color ??
null` maps both an absent field and `null` to `null`, so color fields are
`Option TerminalColor` directly. -/
structure PartialCell where
  char : Option String := none
  fg_color : Option TerminalColor := none
  bg_color : Option TerminalColor := none
  bold : Option Bool := none
  italic : Option Bool := none
  underline : Option Bool := none
  reverse : Option Bool := none
deriving DecidableEq, Repr

/-- Reconstruct a full `GridCell` from a partial cell, filling omissions with
defaults (`fullCell` at terminalStore.ts lines 222-230).  The reconstructed
cell carries no `has_cursor` field, i.e. `false`. -/
def mkFullCell (p : PartialCell) : GridCell :=
  { char := p.char.getD " "
    fg_color := p.fg_color
    bg_color := p.bg_color
    bold := p.bold.getD false
    italic := p.italic.getD false
    underline := p.underline.getD false
    reverse := p.reverse.getD false
    has_cursor := false }

/-- A `grid_update` message as consumed by `handleGridUpdate` (already
transformed by Terminal.tsx: `cursor` is an object or absent). -/
structure GridUpdateMsg where
  size : Option Size := none
  cells : Option (List (Nat × Nat × PartialCell)) := none
  cursor : Option Cursor := none
  cursor_visible : Option Bool := none
deriving DecidableEq, Repr

/-- The `message.cells.forEach` loop of `handleGridUpdate`: overwrite the map
entry at each listed coordinate with the reconstructed full cell. -/
def applyCellUpdates (l : List (Nat × Nat × PartialCell))
    (cs : List (Pos × GridCell)) : List (Pos × GridCell) :=
  l.foldl (fun m e => cellsSet m (e.fst, e.snd.fst) (mkFullCell e.snd.snd)) cs

/-- `handleGridUpdate` action (terminalStore.ts lines 203-302).  The four
steps run in source order, threading the working cell map (`updates.cells`)
from one step to the next; the cursor step and the visibility step both read
the cursor coordinates and the visibility flag from the state as it was at
entry (`state.cursor`, `state.cursor_visible`), not the updated values. -/
def handleGridUpdate (msg : GridUpdateMsg) (st : TerminalState) : TerminalState :=
  let newSize :=
    match msg.size with
    | some s => if s.rows ≠ st.size.rows ∨ s.cols ≠ st.size.cols then s else st.size
    | none => st.size
  let cells1 :=
    match msg.cells with
    | some l => if 0 < l.length then applyCellUpdates l st.cells else st.cells
    | none => st.cells
  let cursorStep : List (Pos × GridCell) × Cursor :=
    match msg.cursor with
    | some cur =>
        if cur.row ≠ st.cursor.row ∨ cur.col ≠ st.cursor.col then
          let oldKey : Pos := (st.cursor.row, st.cursor.col)
          let m1 :=
            match cellsGet cells1 oldKey with
            | some oldCell =>
                if oldCell.has_cursor then
                  cellsSet cells1 oldKey { oldCell with has_cursor := false }
                else cells1
            | none => cells1
          let newKey : Pos := (cur.row, cur.col)
          let ncell := (cellsGet m1 newKey).getD blankCell
          let vis := msg.cursor_visible.getD st.cursor_visible
          let m2 := if vis then cellsSet m1 newKey { ncell with has_cursor := true } else m1
          (m2, cur)
        else (cells1, st.cursor)
    | none => (cells1, st.cursor)
  let visStep : List (Pos × GridCell) × Bool :=
    match msg.cursor_visible with
    | some v =>
        if v ≠ st.cursor_visible then
          let key : Pos := (st.cursor.row, st.cursor.col)
          let m :=
            match cellsGet cursorStep.fst key with
            | some c => cellsSet cursorStep.fst key { c with has_cursor := v }
            | none => cursorStep.fst
          (m, v)
        else (cursorStep.fst, st.cursor_visible)
    | none => (cursorStep.fst, st.cursor_visible)
  { size := newSize
    cells := visStep.fst
    cursor := cursorStep.snd
    cursor_visible := visStep.snd
    theme := st.theme }

/-- One store operation: a sequence of these from the initial state spans
the reachable store states. -/
inductive StoreOp where
  | gridUpdate (msg : GridUpdateMsg)
  | moveCursor (row col : Nat)
  | setVisible (visible : Bool)
  | resize (rows cols : Nat)
  | putCell (row col : Nat) (cell : GridCell)
  | putCells (updates : List (Nat × Nat × GridCell))
  | clearAll
  | applyTheme (theme : TerminalTheme)
deriving DecidableEq, Repr

/-- Apply one store operation. -/
def applyStoreOp (st : TerminalState) : StoreOp → TerminalState
  | .gridUpdate msg => handleGridUpdate msg st
  | .moveCursor r c => updateCursor r c st
  | .setVisible v => setCursorVisible v st
  | .resize r c => updateSize r c st
  | .putCell r c cell => updateCell r c cell st
  | .putCells l => updateCells l st
  | .clearAll => clearCells st
  | .applyTheme t => setTheme t st

/-- Run a sequence of store operations. -/
def runStoreOps (st : TerminalState) (ops : List StoreOp) : TerminalState :=
  ops.foldl applyStoreOp st

/-- Render an `rgb(r, g, b)` CSS string exactly as the template literal in
`resolveColor` does. -/
def rgbString (r g b : Nat) : String :=
  "rgb(" ++ toString r ++ ", " ++ toString g ++ ", " ++ toString b ++ ")"

/-- `resolveColor` (terminalStore.ts lines 308-358).  The store reads its
current theme via `get()`; here the theme is passed explicitly.  Palette
indices are naturals on the wire.  `theme.colors[index] ||` falls back to
the default color on a missing or falsy (empty) entry. -/
def resolveColor (theme : TerminalTheme) (color : Option TerminalColor)
    (isBackground : Bool) : String :=
  match color with
  | none => if isBackground then theme.background else theme.foreground
  | some TerminalColor.Default => if isBackground then theme.background else theme.foreground
  | some (TerminalColor.Indexed index) =>
      if index < theme.colors.length then theme.colors.getD index ""
      else if isBackground then theme.background else theme.foreground
  | some (TerminalColor.Palette index) =>
      if index < 16 then
        match theme.colors.get? index with
        | some c =>
            if c = "" then (if isBackground then theme.background else theme.foreground) else c
        | none => if isBackground then theme.background else theme.foreground
      else if index < 232 then
        let n := index - 16
        rgbString (n / 36 * 51) (n % 36 / 6 * 51) (n % 6 * 51)
      else
        let level := (index - 232) * 255 / 23
        rgbString level level level
  | some (TerminalColor.Rgb r g b) => rgbString r g b

/-- Key modifiers, from `WebKeyModifiers` in terminalStore.ts. -/
structure WebKeyModifiers where
  shift : Bool
  ctrl : Bool
  alt : Bool
  meta : Bool
deriving DecidableEq, Repr

/-- Key codes, from `WebKeyCode` in terminalStore.ts (`Char` carries a
one-code-point string, embedded as `Char`). -/
inductive WebKeyCode where
  | Char (c : Char)
  | Backspace
  | Enter
  | Left
  | Right
  | Up
  | Down
  | Home
  | End
  | PageUp
  | PageDown
  | Tab
  | Delete
  | Insert
  | F (n : Nat)
  | Esc
deriving DecidableEq, Repr

/-- A key event, from `WebKeyEvent` in terminalStore.ts. -/
structure WebKeyEvent where
  code : WebKeyCode
  modifiers : WebKeyModifiers
deriving DecidableEq, Repr

/-- Outbound client messages as serialized by Terminal.tsx: the opaque
string message `{type: "input", data}` (`_sendInput`), the per-keystroke
message `{type: "key", code, modifiers}` (`sendKeyEvent`), and scroll. -/
inductive ClientMessage where
  | input (data : String)
  | key (code : WebKeyCode) (modifiers : WebKeyModifiers)
  | scroll (direction : String) (lines : Nat)
deriving DecidableEq, Repr

/-- The all-false modifier record built inline in `handleInputSubmit`. -/
def noModifiers : WebKeyModifiers :=
  { shift := false, ctrl := false, alt := false, meta := false }

/-- `sendKeyEvent` (Terminal.tsx lines 353-362): the key message put on the
wire for one key event. -/
def sendKeyEvent (e : WebKeyEvent) : ClientMessage :=
  ClientMessage.key e.code e.modifiers

/-- `handleInputSubmit` (Terminal.tsx lines 364-380): the sequence of
messages emitted for one submitted text string — one `Char` key event per
character (JS `for...of` iterates code points, as `String.toList` does),
then a trailing `Enter` key event. -/
def handleInputSubmit (text : String) : List ClientMessage :=
  text.toList.map (fun c => sendKeyEvent { code := WebKeyCode.Char c, modifiers := noModifiers })
    ++ [sendKeyEvent { code := WebKeyCode.Enter, modifiers := noModifiers }]

/-- The transport's mutable connection bookkeeping
(useWebSocketWithReconnect.ts): `shouldReconnectRef`,
`reconnectAttemptRef`, whether `reconnectTimeoutRef` holds a pending timer,
and whether the current socket is open. -/
structure TransportState where
  shouldReconnect : Bool
  reconnectAttempt : Nat
  timerPending : Bool
  socketOpen : Bool
deriving DecidableEq, Repr

/-- Events delivered to the transport by the socket and the timer queue. -/
inductive SockEvent where
  | opened
  | closed (code : Nat)
  | errored
  | timerFire
deriving DecidableEq, Repr

/-- Externally visible actions the transport performs while handling
events: scheduling a reconnect timer (with the attempt number used for the
backoff delay), starting a connection attempt (`createConnection`), and
transmitting a frame. -/
inductive TransportEffect where
  | scheduled (attempt : Nat)
  | connect
  | transmit (data : String)
deriving DecidableEq, Repr

/-- One event-handler step of the transport (useWebSocketWithReconnect.ts):
`socket.onopen` resets the attempt counter and clears the timer;
`socket.onclose` schedules a reconnect only when the reconnect flag is set,
the close code is not the clean 1000, and the attempt counter is below
`maxReconnectAttempts`, incrementing the counter upon scheduling; a fired
timer runs `createConnection` only if the reconnect flag is still set;
`socket.onerror` only reports. -/
def stepEvent (maxReconnectAttempts : Nat) (st : TransportState) :
    SockEvent → TransportState × List TransportEffect
  | SockEvent.opened =>
      ({ st with socketOpen := true, reconnectAttempt := 0, timerPending := false }, [])
  | SockEvent.errored => (st, [])
  | SockEvent.closed code =>
      let st1 := { st with socketOpen := false }
      if st1.shouldReconnect ∧ code ≠ 1000 ∧ st1.reconnectAttempt < maxReconnectAttempts then
        ({ st1 with reconnectAttempt := st1.reconnectAttempt + 1, timerPending := true },
         [TransportEffect.scheduled st1.reconnectAttempt])
      else (st1, [])
  | SockEvent.timerFire =>
      if st.timerPending then
        let st1 := { st with timerPending := false }
        if st1.shouldReconnect then (st1, [TransportEffect.connect]) else (st1, [])
      else (st, [])

/-- Deliver a sequence of events, collecting the effects. -/
def runEvents (maxReconnectAttempts : Nat) (st : TransportState) :
    List SockEvent → TransportState × List TransportEffect
  | [] => (st, [])
  | e :: rest =>
      let r1 := stepEvent maxReconnectAttempts st e
      let r2 := runEvents maxReconnectAttempts r1.fst rest
      (r2.fst, r1.snd ++ r2.snd)

/-- The `close()` API (useWebSocketWithReconnect.ts lines 244-261): set the
persistent do-not-reconnect flag, cancel any pending reconnect timer, and
close the socket with the clean code 1000. -/
def closeTransport (st : TransportState) : TransportState :=
  { st with shouldReconnect := false, timerPending := false, socketOpen := false }

/-- Outcome of one `send` call. -/
inductive SendOutcome where
  | transmitted (data : String)
  | warned
deriving DecidableEq, Repr

/-- The `send` API (useWebSocketWithReconnect.ts lines 235-241): transmit
only when the socket exists and is open; otherwise log a warning.  No state
is touched and nothing is buffered in either branch. -/
def transportSend (st : TransportState) (data : String) : TransportState × SendOutcome :=
  if st.socketOpen then (st, SendOutcome.transmitted data) else (st, SendOutcome.warned)

/-- `calculateDelay` (useWebSocketWithReconnect.ts lines 81-88):
`min(baseDelay * backoffFactor ^ attempt, maxDelay)` plus a jitter term
standing for `Math.random() * 1000`, which lies in `[0, 1000)`. -/
def calculateDelay (baseDelay backoffFactor maxDelay : ℚ) (attempt : Nat) (jitter : ℚ) : ℚ :=
  min (baseDelay * backoffFactor ^ attempt) maxDelay + jitter

/-- A freshly connected transport: reconnect enabled, attempt counter reset
to 0 by `socket.onopen`, no pending timer, socket open. -/
def connectedTransport : TransportState :=
  { shouldReconnect := true, reconnectAttempt := 0, timerPending := false, socketOpen := true }

/-- The last partial cell listed for a coordinate in a diff's cell list. -/
def lastFor : List (Nat × Nat × PartialCell) → Pos → Option PartialCell
  | [], _ => none
  | e :: t, p =>
      match lastFor t p with
      | some q => some q
      | none => if (e.fst, e.snd.fst) = p then some e.snd.snd else none

/-- Reading back through a map write: the written key returns the new cell,
every other key is untouched. -/
theorem cellsGet_cellsSet (cs : List (Pos × GridCell)) (p q : Pos) (c : GridCell) :
    cellsGet (cellsSet cs p c) q = if q = p then some c else cellsGet cs q := by
  induction cs with
  | nil =>
      by_cases h : q = p
      · simp [cellsSet, cellsGet, h]
      · simp [cellsSet, cellsGet, h, show ¬ p = q from fun h' => h h'.symm]
  | cons e t ih =>
      obtain ⟨k, v⟩ := e
      by_cases h1 : k = p
      · by_cases h2 : q = p
        · simp [cellsSet, cellsGet, h1, h2]
        · simp [cellsSet, cellsGet, h1, h2, show ¬ p = q from fun h' => h2 h'.symm,
                show ¬ k = q from fun h' => h2 (h'.symm.trans h1)]
      · by_cases h3 : k = q
        · have h4 : ¬ q = p := fun h => h1 (h3.trans h)
          simp [cellsSet, cellsGet, h1, h3, h4]
        · simp [cellsSet, cellsGet, h1, h3, ih]

/-- Reading back through a diff's cell loop: a coordinate listed in the diff
holds the full cell reconstructed from the last partial listed for it,
independently of whatever the map held before; an unlisted coordinate is
untouched. -/
theorem cellsGet_applyCellUpdates (l : List (Nat × Nat × PartialCell))
    (cs : List (Pos × GridCell)) (p : Pos) :
    cellsGet (applyCellUpdates l cs) p =
      match lastFor l p with
      | some q => some (mkFullCell q)
      | none => cellsGet cs p := by
  induction l generalizing cs with
  | nil => simp [applyCellUpdates, lastFor]
  | cons e t ih =>
      have step : applyCellUpdates (e :: t) cs
          = applyCellUpdates t (cellsSet cs (e.fst, e.snd.fst) (mkFullCell e.snd.snd)) := rfl
      rw [step, ih]
      cases h : lastFor t p with
      | some q => simp [lastFor, h]
      | none =>
          simp only [lastFor, h, cellsGet_cellsSet]
          by_cases hp : (e.fst, e.snd.fst) = p
          · simp [hp]
          · have : ¬ p = (e.fst, e.snd.fst) := fun h' => hp h'.symm
            simp [hp, this]

/-- An empty list has no last entry. -/
theorem lastFor_nil (p : Pos) : lastFor [] p = none := rfl

/-- Overlay through a map write: the written key shows the written cell's
flag, other keys are untouched. -/
theorem overlayAt_cellsSet (cs : List (Pos × GridCell)) (p q : Pos) (c : GridCell) :
    overlayAt (cellsSet cs p c) q = if q = p then c.has_cursor else overlayAt cs q := by
  unfold overlayAt
  rw [cellsGet_cellsSet]
  by_cases h : q = p <;> simp [h]

/-- Overlay in a one-entry map. -/
theorem overlayAt_singleton (k : Pos) (c : GridCell) (q : Pos) :
    overlayAt [(k, c)] q = if k = q then c.has_cursor else false := by
  unfold overlayAt
  by_cases h : k = q <;> simp [cellsGet, h]

/-- Overlay placement after a visible cursor move: the new position is
overlaid, the old stored position is not, every other position keeps its
previous overlay state. -/
theorem updateCursor_overlayAt (row col : Nat) (st : TerminalState) (q : Pos)
    (hvis : st.cursor_visible = true) :
    overlayAt (updateCursor row col st).cells q
      = if q = (row, col) then true
        else if q = (st.cursor.row, st.cursor.col) then false
        else overlayAt st.cells q := by
  simp only [updateCursor, hvis, if_true]
  cases hc : cellsGet st.cells (st.cursor.row, st.cursor.col) with
  | none =>
      dsimp only
      rw [overlayAt_cellsSet]
      by_cases hq1 : q = (row, col)
      · simp [hq1]
      · rw [if_neg hq1, if_neg hq1]
        by_cases hq0 : q = (st.cursor.row, st.cursor.col)
        · simp [hq0, overlayAt, hc]
        · rw [if_neg hq0]
  | some oldCell =>
      dsimp only
      by_cases hoc : oldCell.has_cursor = true
      · rw [if_pos hoc, overlayAt_cellsSet, overlayAt_cellsSet]
      · have hocf : oldCell.has_cursor = false := by
          revert hoc; cases oldCell.has_cursor <;> simp
        rw [if_neg hoc, overlayAt_cellsSet]
        by_cases hq1 : q = (row, col)
        · simp [hq1]
        · rw [if_neg hq1, if_neg hq1]
          by_cases hq0 : q = (st.cursor.row, st.cursor.col)
          · simp [hq0, overlayAt, hc, hocf]
          · rw [if_neg hq0]

/-- A visible cursor move onto a coordinate with no stored cell inserts the
blank default cell there, overlaid. -/
theorem updateCursor_inserts_blank (row col : Nat) (st : TerminalState)
    (hvis : st.cursor_visible = true) (hnone : cellsGet st.cells (row, col) = none)
    (hne : ((row, col) : Pos) ≠ (st.cursor.row, st.cursor.col)) :
    cellsGet (updateCursor row col st).cells (row, col)
      = some { blankCell with has_cursor := true } := by
  simp only [updateCursor, hvis, if_true]
  cases hc : cellsGet st.cells (st.cursor.row, st.cursor.col) with
  | none =>
      dsimp only
      simp [cellsGet_cellsSet, hnone, blankCell]
  | some oldCell =>
      dsimp only
      by_cases hoc : oldCell.has_cursor = true
      · rw [if_pos hoc]
        simp [cellsGet_cellsSet, hne, hnone, blankCell]
      · rw [if_neg hoc]
        simp [cellsGet_cellsSet, hnone, blankCell]

/-- A `grid_update` carrying only a cursor that differs from the stored one
acts exactly like the `updateCursor` action. -/
theorem handleGridUpdate_cursorOnly (cur : Cursor) (st : TerminalState)
    (h : cur.row ≠ st.cursor.row ∨ cur.col ≠ st.cursor.col) :
    handleGridUpdate { cursor := some cur } st = updateCursor cur.row cur.col st := by
  simp [handleGridUpdate, updateCursor, h]

/-- Once the do-not-reconnect flag is down, delivering any events produces
no effects at all and keeps the flag down. -/
theorem runEvents_no_effects_of_noReconnect (maxA : Nat) (evs : List SockEvent) :
    ∀ st : TransportState, st.shouldReconnect = false →
      (runEvents maxA st evs).snd = [] ∧ (runEvents maxA st evs).fst.shouldReconnect = false := by
  induction evs with
  | nil => intro st h; simp [runEvents, h]
  | cons e rest ih =>
      intro st h
      have hstep : (stepEvent maxA st e).snd = []
          ∧ (stepEvent maxA st e).fst.shouldReconnect = false := by
        cases e with
        | opened => simp [stepEvent, h]
        | errored => simp [stepEvent, h]
        | closed code => simp [stepEvent, h]
        | timerFire =>
            by_cases hp : st.timerPending <;> simp [stepEvent, h, hp]
      have hrest := ih (stepEvent maxA st e).fst hstep.2
      simp [runEvents, hstep.1, hrest.1, hrest.2]

/-- Socket and timer event handling never transmits a frame. -/
theorem stepEvent_no_transmit (maxA : Nat) (st : TransportState) (e : SockEvent) (d : String) :
    TransportEffect.transmit d ∉ (stepEvent maxA st e).snd := by
  cases e with
  | opened => simp [stepEvent]
  | errored => simp [stepEvent]
  | closed code =>
      simp only [stepEvent]
      split_ifs <;> simp
  | timerFire =>
      simp only [stepEvent]
      split_ifs <;> simp

/-- No event sequence ever transmits a frame: transmissions happen only
inside `transportSend` itself. -/
theorem runEvents_no_transmit (maxA : Nat) (evs : List SockEvent) (d : String) :
    ∀ st : TransportState, TransportEffect.transmit d ∉ (runEvents maxA st evs).snd := by
  induction evs with
  | nil => intro st; simp [runEvents]
  | cons e rest ih =>
      intro st
      simp only [runEvents, List.mem_append, not_or]
      exact ⟨stepEvent_no_transmit maxA st e d, ih (stepEvent maxA st e).fst⟩

/-- C1: the store is claimed to keep at most one overlaid cell while the
cursor is visible (zero while hidden), over every reachable state.  The code
breaks this: a `grid_update` that both moves the cursor and turns visibility
on re-sets the overlay at the stale pre-move cursor position (the visibility
step reads `state.cursor` from before the move), so the reachable state
below has the cursor visible with the overlay set at both `(0,0)` and
`(1,1)`. -/
theorem overlay_invariant_violated_by_combined_update :
    (runStoreOps initialTerminalState
      [StoreOp.gridUpdate { cells := some [(0, 0, {})] },
       StoreOp.setVisible false,
       StoreOp.gridUpdate { cursor := some { row := 1, col := 1 },
                            cursor_visible := some true }]).cursor_visible = true ∧
    overlayAt (runStoreOps initialTerminalState
      [StoreOp.gridUpdate { cells := some [(0, 0, {})] },
       StoreOp.setVisible false,
       StoreOp.gridUpdate { cursor := some { row := 1, col := 1 },
                            cursor_visible := some true }]).cells (0, 0) = true ∧
    overlayAt (runStoreOps initialTerminalState
      [StoreOp.gridUpdate { cells := some [(0, 0, {})] },
       StoreOp.setVisible false,
       StoreOp.gridUpdate { cursor := some { row := 1, col := 1 },
                            cursor_visible := some true }]).cells (1, 1) = true ∧
    ((0, 0) : Pos) ≠ ((1, 1) : Pos) := by
  decide

/-- C2: with `maxReconnectAttempts = 3`, `baseDelay = 1000`, `backoffFactor
= 2`, `maxDelay = 5000` and any jitter draw in `[0, 1000)`, the delays
scheduled for attempts 0, 1, 2 lie in `[1000, 2000)`, `[2000, 3000)` and
`[4000, 5000)` respectively, and after the third attempt's connection fails
with an abnormal close no fourth reconnect is scheduled (the trace of three
failed attempts ends with a close event that emits no effect). -/
theorem reconnect_backoff_bounds_and_cap :
    ∀ j : ℚ, 0 ≤ j → j < 1000 →
      (1000 ≤ calculateDelay 1000 2 5000 0 j ∧ calculateDelay 1000 2 5000 0 j < 2000) ∧
      (2000 ≤ calculateDelay 1000 2 5000 1 j ∧ calculateDelay 1000 2 5000 1 j < 3000) ∧
      (4000 ≤ calculateDelay 1000 2 5000 2 j ∧ calculateDelay 1000 2 5000 2 j < 5000) ∧
      (runEvents 3 connectedTransport
        [SockEvent.closed 1006, SockEvent.timerFire, SockEvent.closed 1006, SockEvent.timerFire,
         SockEvent.closed 1006, SockEvent.timerFire, SockEvent.closed 1006]).snd
        = [TransportEffect.scheduled 0, TransportEffect.connect, TransportEffect.scheduled 1,
           TransportEffect.connect, TransportEffect.scheduled 2, TransportEffect.connect] := by
  intro j h0 h1
  have d0 : calculateDelay 1000 2 5000 0 j = 1000 + j := by
    simp [calculateDelay]
    norm_num
  have d1 : calculateDelay 1000 2 5000 1 j = 2000 + j := by
    simp [calculateDelay]
    norm_num
  have d2 : calculateDelay 1000 2 5000 2 j = 4000 + j := by
    simp [calculateDelay]
    norm_num
  refine ⟨⟨by rw [d0]; linarith, by rw [d0]; linarith⟩,
          ⟨by rw [d1]; linarith, by rw [d1]; linarith⟩,
          ⟨by rw [d2]; linarith, by rw [d2]; linarith⟩, by decide⟩

/-- Witness for C2 at the concrete jitter draw 0. -/
theorem reconnect_backoff_bounds_and_cap_witness :
    ((1000 : ℚ) ≤ calculateDelay 1000 2 5000 0 0 ∧ calculateDelay 1000 2 5000 0 0 < 2000) ∧
    ((2000 : ℚ) ≤ calculateDelay 1000 2 5000 1 0 ∧ calculateDelay 1000 2 5000 1 0 < 3000) ∧
    ((4000 : ℚ) ≤ calculateDelay 1000 2 5000 2 0 ∧ calculateDelay 1000 2 5000 2 0 < 5000) ∧
    (runEvents 3 connectedTransport
      [SockEvent.closed 1006, SockEvent.timerFire, SockEvent.closed 1006, SockEvent.timerFire,
       SockEvent.closed 1006, SockEvent.timerFire, SockEvent.closed 1006]).snd
      = [TransportEffect.scheduled 0, TransportEffect.connect, TransportEffect.scheduled 1,
         TransportEffect.connect, TransportEffect.scheduled 2, TransportEffect.connect] :=
  reconnect_backoff_bounds_and_cap 0 (by norm_num) (by norm_num)

/-- C3: after `close()` the timer is cancelled and no subsequently
delivered socket or timer event — including an abnormal close for the
already-closed socket — ever schedules or performs a reconnect (the
collected effect list of any event sequence is empty). -/
theorem close_suppresses_all_reconnects :
    ∀ (st : TransportState) (maxReconnectAttempts : Nat) (evs : List SockEvent),
      (closeTransport st).timerPending = false ∧
      (runEvents maxReconnectAttempts (closeTransport st) evs).snd = [] := by
  intro st maxA evs
  exact ⟨rfl, (runEvents_no_effects_of_noReconnect maxA evs (closeTransport st) rfl).1⟩

/-- C4: each cell listed in a `grid_update` overwrites the map entry at its
coordinate wholesale with the cell rebuilt from the partial plus defaults,
for every prior store state (so nothing is inherited from a previous cell);
a partial that omits `bold` yields `bold = false`; the empty partial yields
the blank default cell; and the `null` color default renders exactly like
the `Default` descriptor. -/
theorem diff_cells_overwrite_wholesale :
    (∀ (st : TerminalState) (l : List (Nat × Nat × PartialCell)) (r c : Nat) (p : PartialCell),
      lastFor l (r, c) = some p →
      cellsGet (handleGridUpdate { cells := some l } st).cells (r, c) = some (mkFullCell p)) ∧
    (∀ q : PartialCell, q.bold = none → (mkFullCell q).bold = false) ∧
    mkFullCell {} = { char := " "
                      fg_color := none
                      bg_color := none
                      bold := false
                      italic := false
                      underline := false
                      reverse := false
                      has_cursor := false } ∧
    (∀ (theme : TerminalTheme) (b : Bool),
      resolveColor theme none b = resolveColor theme (some TerminalColor.Default) b) := by
  refine ⟨?_, ?_, rfl, fun theme b => rfl⟩
  · intro st l r c p h
    have hl : 0 < l.length := by
      cases l with
      | nil => simp [lastFor] at h
      | cons e t => simp
    have hcells : (handleGridUpdate { cells := some l } st).cells
        = applyCellUpdates l st.cells := by
      simp [handleGridUpdate, hl]
    rw [hcells, cellsGet_applyCellUpdates, h]
  · intro q hq
    simp [mkFullCell, hq]

/-- Witness for C4: a diff cell for `(3,4)` that omits `bold` replaces a
previously bold cell at `(3,4)` with the blank default reconstruction. -/
theorem diff_cells_overwrite_wholesale_witness :
    cellsGet (handleGridUpdate { cells := some [(3, 4, ({} : PartialCell))] }
        (updateCell 3 4 { blankCell with bold := true } initialTerminalState)).cells (3, 4)
      = some (mkFullCell {}) ∧ (mkFullCell ({} : PartialCell)).bold = false :=
  ⟨diff_cells_overwrite_wholesale.1
      (updateCell 3 4 { blankCell with bold := true } initialTerminalState)
      [(3, 4, {})] 3 4 {} (by decide),
   diff_cells_overwrite_wholesale.2.1 {} rfl⟩

/-- C5: `send` called while the socket is not open leaves the transport
state unchanged and signals a warning instead of transmitting; because the
state is unchanged and event handling never transmits, the dropped frame is
never transmitted later either, whatever events (including a reopen)
follow. -/
theorem send_while_disconnected_drops_frame :
    ∀ (st : TransportState) (data : String), st.socketOpen = false →
      transportSend st data = (st, SendOutcome.warned) ∧
      (∀ (maxReconnectAttempts : Nat) (evs : List SockEvent),
        runEvents maxReconnectAttempts (transportSend st data).fst evs
          = runEvents maxReconnectAttempts st evs ∧
        TransportEffect.transmit data ∉ (runEvents maxReconnectAttempts st evs).snd) := by
  intro st data h
  have h1 : transportSend st data = (st, SendOutcome.warned) := by simp [transportSend, h]
  exact ⟨h1, fun maxA evs => ⟨by rw [h1], runEvents_no_transmit maxA evs data st⟩⟩

/-- Witness for C5: sending on a disconnected transport yields a warning,
and the frame is not among the effects of a later close/timer/reopen
sequence. -/
theorem send_while_disconnected_drops_frame_witness :
    transportSend { shouldReconnect := true, reconnectAttempt := 0, timerPending := false, socketOpen := false } "hello"
      = ({ shouldReconnect := true, reconnectAttempt := 0, timerPending := false, socketOpen := false }, SendOutcome.warned) ∧
    TransportEffect.transmit "hello" ∉
      (runEvents 5 { shouldReconnect := true, reconnectAttempt := 0, timerPending := false, socketOpen := false }
        [SockEvent.closed 1006, SockEvent.timerFire, SockEvent.opened]).snd :=
  ⟨(send_while_disconnected_drops_frame
      { shouldReconnect := true, reconnectAttempt := 0, timerPending := false, socketOpen := false }
      "hello" rfl).1,
   ((send_while_disconnected_drops_frame
      { shouldReconnect := true, reconnectAttempt := 0, timerPending := false, socketOpen := false }
      "hello" rfl).2 5 [SockEvent.closed 1006, SockEvent.timerFire, SockEvent.opened]).2⟩

/-- C6 counterexample: the claim quantifies over every state whose stored
cursor is `(0,0)`, visible, with the overlay set at `(0,0)` — but a stray
overlaid cell elsewhere survives the move.  The state below is reachable
(it arises from the stale-cursor bug of the combined move-and-show update):
it satisfies the claim's premises, yet after `updateCursor 1 1` two cells
are overlaid, `(1,1)` and `(2,2)`, so "exactly one cell, at `(1,1)`" fails. -/
theorem cursor_move_stray_overlay_counterexample :
    (runStoreOps initialTerminalState
        [StoreOp.gridUpdate { cells := some [(2, 2, {})] },
         StoreOp.moveCursor 2 2,
         StoreOp.setVisible false,
         StoreOp.gridUpdate { cursor := some { row := 0, col := 0 }, cursor_visible := some true }]).cursor
        = { row := 0, col := 0 } ∧
    (runStoreOps initialTerminalState
        [StoreOp.gridUpdate { cells := some [(2, 2, {})] },
         StoreOp.moveCursor 2 2,
         StoreOp.setVisible false,
         StoreOp.gridUpdate { cursor := some { row := 0, col := 0 }, cursor_visible := some true }]).cursor_visible
        = true ∧
    overlayAt (runStoreOps initialTerminalState
        [StoreOp.gridUpdate { cells := some [(2, 2, {})] },
         StoreOp.moveCursor 2 2,
         StoreOp.setVisible false,
         StoreOp.gridUpdate { cursor := some { row := 0, col := 0 }, cursor_visible := some true }]).cells
        (0, 0) = true ∧
    overlayAt (updateCursor 1 1 (runStoreOps initialTerminalState
        [StoreOp.gridUpdate { cells := some [(2, 2, {})] },
         StoreOp.moveCursor 2 2,
         StoreOp.setVisible false,
         StoreOp.gridUpdate { cursor := some { row := 0, col := 0 }, cursor_visible := some true }])).cells
        (1, 1) = true ∧
    overlayAt (updateCursor 1 1 (runStoreOps initialTerminalState
        [StoreOp.gridUpdate { cells := some [(2, 2, {})] },
         StoreOp.moveCursor 2 2,
         StoreOp.setVisible false,
         StoreOp.gridUpdate { cursor := some { row := 0, col := 0 }, cursor_visible := some true }])).cells
        (2, 2) = true ∧
    ¬ (∀ q : Pos,
        overlayAt (updateCursor 1 1 (runStoreOps initialTerminalState
          [StoreOp.gridUpdate { cells := some [(2, 2, {})] },
           StoreOp.moveCursor 2 2,
           StoreOp.setVisible false,
           StoreOp.gridUpdate { cursor := some { row := 0, col := 0 }, cursor_visible := some true }])).cells
          q = true → q = (1, 1)) := by
  refine ⟨by decide, by decide, by decide, by decide, by decide, fun h => ?_⟩
  exact absurd (h (2, 2) (by decide)) (by decide)

/-- C6 amended: starting from any state with stored cursor `(0,0)`, cursor
visible, and the overlay set at `(0,0)` and nowhere else, a cursor move to
`(1,1)` with visibility unchanged — whether through the `updateCursor`
action or a cursor-only `grid_update` — yields exactly one overlaid cell,
at `(1,1)`; the stored cursor becomes `(1,1)`; and if no cell existed at
`(1,1)`, the blank default cell is inserted there (overlaid). -/
theorem cursor_move_unique_overlay_amended :
    ∀ st : TerminalState,
      st.cursor = { row := 0, col := 0 } →
      st.cursor_visible = true →
      (∀ q : Pos, overlayAt st.cells q = true ↔ q = (0, 0)) →
      ((∀ q : Pos, overlayAt (updateCursor 1 1 st).cells q = true ↔ q = (1, 1)) ∧
       (updateCursor 1 1 st).cursor = { row := 1, col := 1 } ∧
       (cellsGet st.cells (1, 1) = none →
         cellsGet (updateCursor 1 1 st).cells (1, 1)
           = some { blankCell with has_cursor := true })) ∧
      ((∀ q : Pos,
          overlayAt (handleGridUpdate { cursor := some { row := 1, col := 1 } } st).cells q = true
            ↔ q = (1, 1)) ∧
       (handleGridUpdate { cursor := some { row := 1, col := 1 } } st).cursor
          = { row := 1, col := 1 } ∧
       (cellsGet st.cells (1, 1) = none →
         cellsGet (handleGridUpdate { cursor := some { row := 1, col := 1 } } st).cells (1, 1)
           = some { blankCell with has_cursor := true })) := by
  intro st hcur hvis hov
  have hchar : ∀ q : Pos, overlayAt (updateCursor 1 1 st).cells q
      = if q = (1, 1) then true else if q = (0, 0) then false else overlayAt st.cells q := by
    intro q
    rw [updateCursor_overlayAt 1 1 st q hvis, hcur]
  have hiff : ∀ q : Pos, overlayAt (updateCursor 1 1 st).cells q = true ↔ q = (1, 1) := by
    intro q
    rw [hchar q]
    by_cases hq1 : q = (1, 1)
    · simp [hq1]
    · rw [if_neg hq1]
      by_cases hq0 : q = (0, 0)
      · simp [hq0, hq1]
      · rw [if_neg hq0]
        exact ⟨fun h => absurd ((hov q).mp h) hq0, fun h => absurd h hq1⟩
  have hins : cellsGet st.cells (1, 1) = none →
      cellsGet (updateCursor 1 1 st).cells (1, 1) = some { blankCell with has_cursor := true } :=
    fun hnone => updateCursor_inserts_blank 1 1 st hvis hnone (by rw [hcur]; decide)
  have heq : handleGridUpdate { cursor := some { row := 1, col := 1 } } st
      = updateCursor 1 1 st :=
    handleGridUpdate_cursorOnly { row := 1, col := 1 } st (by rw [hcur]; exact Or.inl (by decide))
  refine ⟨⟨hiff, rfl, hins⟩, ?_, ?_, ?_⟩
  · intro q; rw [heq]; exact hiff q
  · rw [heq]; rfl
  · intro hnone; rw [heq]; exact hins hnone

/-- Witness for C6 amended: from the state produced by `updateCursor 0 0`
on the empty initial store (cursor `(0,0)`, visible, only overlay at
`(0,0)`), moving to `(1,1)` overlays `(1,1)` and moves the stored cursor. -/
theorem cursor_move_unique_overlay_amended_witness :
    overlayAt (updateCursor 1 1 (updateCursor 0 0 initialTerminalState)).cells (1, 1) = true ∧
    (updateCursor 1 1 (updateCursor 0 0 initialTerminalState)).cursor = { row := 1, col := 1 } := by
  have hov : ∀ q : Pos,
      overlayAt (updateCursor 0 0 initialTerminalState).cells q = true ↔ q = (0, 0) := by
    have hcells : (updateCursor 0 0 initialTerminalState).cells
        = [((0, 0), { blankCell with has_cursor := true })] := by decide
    intro q
    rw [hcells, overlayAt_singleton]
    by_cases h : ((0, 0) : Pos) = q
    · rw [if_pos h]
      exact ⟨fun _ => h.symm, fun _ => rfl⟩
    · rw [if_neg h]
      exact ⟨fun hh => absurd hh Bool.false_ne_true, fun hh => absurd hh.symm h⟩
  have h := cursor_move_unique_overlay_amended (updateCursor 0 0 initialTerminalState)
    (by decide) (by decide) hov
  exact ⟨(h.1.1 (1, 1)).mpr rfl, h.1.2.1⟩

/-- C7: `resolveColor` realises the xterm palette arithmetic: palette 16 is
`rgb(0, 0, 0)`, 231 is `rgb(255, 255, 255)`, 232 is gray level 0, 255 is
gray level 255; generally `16 ≤ n < 232` maps through the 6×6×6 cube
formula and `n ≥ 232` through the 24-step grayscale ramp. -/
theorem palette_color_arithmetic :
    ∀ (theme : TerminalTheme),
      resolveColor theme (some (TerminalColor.Palette 16)) false = "rgb(0, 0, 0)" ∧
      resolveColor theme (some (TerminalColor.Palette 231)) false = "rgb(255, 255, 255)" ∧
      resolveColor theme (some (TerminalColor.Palette 232)) false = rgbString 0 0 0 ∧
      resolveColor theme (some (TerminalColor.Palette 255)) false = rgbString 255 255 255 ∧
      (∀ n : Nat, 16 ≤ n → n < 232 →
        resolveColor theme (some (TerminalColor.Palette n)) false =
          rgbString ((n - 16) / 36 * 51) ((n - 16) % 36 / 6 * 51) ((n - 16) % 6 * 51)) ∧
      (∀ n : Nat, 232 ≤ n →
        resolveColor theme (some (TerminalColor.Palette n)) false =
          rgbString ((n - 232) * 255 / 23) ((n - 232) * 255 / 23) ((n - 232) * 255 / 23)) := by
  intro theme
  refine ⟨rfl, rfl, rfl, rfl, ?_, ?_⟩
  · intro n h1 h2
    have hn : ¬ n < 16 := by omega
    simp [resolveColor, hn, h2]
  · intro n h1
    have hn : ¬ n < 16 := by omega
    have hn' : ¬ n < 232 := by omega
    simp [resolveColor, hn, hn']

/-- Witness for C7 at palette indices 16, 231, 100 and 240 with the default
theme. -/
theorem palette_color_arithmetic_witness :
    resolveColor defaultTheme (some (TerminalColor.Palette 16)) false = "rgb(0, 0, 0)" ∧
    resolveColor defaultTheme (some (TerminalColor.Palette 231)) false = "rgb(255, 255, 255)" ∧
    resolveColor defaultTheme (some (TerminalColor.Palette 100)) false
      = rgbString ((100 - 16) / 36 * 51) ((100 - 16) % 36 / 6 * 51) ((100 - 16) % 6 * 51) ∧
    resolveColor defaultTheme (some (TerminalColor.Palette 240)) false
      = rgbString ((240 - 232) * 255 / 23) ((240 - 232) * 255 / 23) ((240 - 232) * 255 / 23) :=
  ⟨(palette_color_arithmetic defaultTheme).1,
   (palette_color_arithmetic defaultTheme).2.1,
   (palette_color_arithmetic defaultTheme).2.2.2.2.1 100 (by norm_num) (by norm_num),
   (palette_color_arithmetic defaultTheme).2.2.2.2.2 240 (by norm_num)⟩

/-- C8: a size step replaces only the stored size.  `updateSize` (the
`pty_size` path) leaves cells, cursor and visibility exactly as they were;
in `handleGridUpdate` a differing size is stored, and the resulting cells,
cursor and visibility never depend on the message's size field at all — so
no map entry inside or outside the new bounds is removed or modified by the
size step. -/
theorem size_update_leaves_cells_untouched :
    ∀ (st : TerminalState) (rows cols : Nat) (msg : GridUpdateMsg) (s : Size),
      ((updateSize rows cols st).size = { rows := rows, cols := cols } ∧
       (updateSize rows cols st).cells = st.cells ∧
       (updateSize rows cols st).cursor = st.cursor ∧
       (updateSize rows cols st).cursor_visible = st.cursor_visible) ∧
      (msg.size = some s → s ≠ st.size → (handleGridUpdate msg st).size = s) ∧
      ((handleGridUpdate msg st).cells = (handleGridUpdate { msg with size := none } st).cells ∧
       (handleGridUpdate msg st).cursor = (handleGridUpdate { msg with size := none } st).cursor ∧
       (handleGridUpdate msg st).cursor_visible
         = (handleGridUpdate { msg with size := none } st).cursor_visible) := by
  intro st rows cols msg s
  refine ⟨⟨rfl, rfl, rfl, rfl⟩, ?_, rfl, rfl, rfl⟩
  intro hs hne
  have hco : s.rows ≠ st.size.rows ∨ s.cols ≠ st.size.cols := by
    by_contra hc
    push_neg at hc
    obtain ⟨h1, h2⟩ := hc
    apply hne
    obtain ⟨a, b⟩ := s
    rw [show a = st.size.rows from h1, show b = st.size.cols from h2]
  simp [handleGridUpdate, hs, hco]

/-- Witness for C8: a `grid_update` carrying only the size `10×20` replaces
the initial `24×80`, and `updateSize` leaves the cell map untouched. -/
theorem size_update_leaves_cells_untouched_witness :
    (handleGridUpdate { size := some { rows := 10, cols := 20 } } initialTerminalState).size
      = { rows := 10, cols := 20 } ∧
    (updateSize 10 20 initialTerminalState).cells = initialTerminalState.cells :=
  ⟨(size_update_leaves_cells_untouched initialTerminalState 10 20
      { size := some { rows := 10, cols := 20 } } { rows := 10, cols := 20 }).2.1 rfl (by decide),
   (size_update_leaves_cells_untouched initialTerminalState 10 20
      { size := some { rows := 10, cols := 20 } } { rows := 10, cols := 20 }).1.2.1⟩

/-- C9: a submitted text string is emitted as exactly one `Key` message with
code `Char c` per character `c`, in string order, then exactly one trailing
`Key Enter`, all with no modifiers; no `input` (opaque string) message is
ever emitted by this path. -/
theorem input_decomposed_into_key_events :
    ∀ text : String,
      (handleInputSubmit text).length = text.toList.length + 1 ∧
      (∀ (i : Nat) (ch : Char), text.toList[i]? = some ch →
        (handleInputSubmit text)[i]?
          = some (ClientMessage.key (WebKeyCode.Char ch) noModifiers)) ∧
      (handleInputSubmit text)[text.toList.length]?
        = some (ClientMessage.key WebKeyCode.Enter noModifiers) ∧
      (∀ m ∈ handleInputSubmit text, ∀ s, m ≠ ClientMessage.input s) := by
  intro text
  refine ⟨by simp [handleInputSubmit], ?_, ?_, ?_⟩
  · intro i ch h
    have hi : i < text.toList.length := by
      by_contra hle
      push_neg at hle
      rw [List.getElem?_eq_none hle] at h
      exact Option.noConfusion h
    rw [handleInputSubmit, List.getElem?_append_left (by simpa using hi),
        List.getElem?_map, h]
    rfl
  · rw [handleInputSubmit, List.getElem?_append_right (by simp)]
    simp [sendKeyEvent]
  · intro m hm s
    simp only [handleInputSubmit, List.mem_append, List.mem_map, List.mem_singleton] at hm
    rcases hm with ⟨ch, _, rfl⟩ | rfl <;> simp [sendKeyEvent]

/-- Witness for C9 on the string `"hi"`: first emitted message is
`Key (Char h)`, the message after the two characters is `Key Enter`. -/
theorem input_decomposed_into_key_events_witness :
    (handleInputSubmit "hi")[0]? = some (ClientMessage.key (WebKeyCode.Char 'h') noModifiers) ∧
    (handleInputSubmit "hi")["hi".toList.length]?
      = some (ClientMessage.key WebKeyCode.Enter noModifiers) :=
  ⟨(input_decomposed_into_key_events "hi").2.1 0 'h' (by decide),
   (input_decomposed_into_key_events "hi").2.2.1⟩

/-- C10: from a state whose visible cursor at `(r,c)` has its overlay set on
the stored cell, a `grid_update` whose cell list contains an entry for
`(r,c)` and whose cursor field is absent or equal to `(r,c)` leaves the cell
at `(r,c)` without the overlay: the whole-cell replacement drops it and no
step of the update restores it. -/
theorem cell_replacement_drops_cursor_overlay :
    ∀ (st : TerminalState) (msg : GridUpdateMsg) (l : List (Nat × Nat × PartialCell))
      (r c : Nat) (p : PartialCell),
      st.cursor_visible = true →
      st.cursor = { row := r, col := c } →
      overlayAt st.cells (r, c) = true →
      msg.cells = some l →
      lastFor l (r, c) = some p →
      (msg.cursor = none ∨ msg.cursor = some { row := r, col := c }) →
      overlayAt (handleGridUpdate msg st).cells (r, c) = false := by
  intro st msg l r c p hvis hcur hov hcells hlast hcursor
  have hl : 0 < l.length := by
    cases l with
    | nil => simp [lastFor] at hlast
    | cons e t => simp
  have h1 : cellsGet (applyCellUpdates l st.cells) (r, c) = some (mkFullCell p) := by
    rw [cellsGet_applyCellUpdates, hlast]
  rcases hcursor with hcu | hcu <;>
  cases hcv : msg.cursor_visible with
  | none =>
      simp only [handleGridUpdate, hcells, hcu, hcv, hcur, hl, if_pos, overlayAt]
      simp [h1, mkFullCell]
  | some v =>
      by_cases hv : v = st.cursor_visible
      · simp only [handleGridUpdate, hcells, hcu, hcv, hcur, hvis, hl, overlayAt]
        simp [hv, hvis, h1, mkFullCell]
      · have hvf : v = false := by
          cases v with
          | true => exact absurd (hvis ▸ rfl) hv
          | false => rfl
        simp only [handleGridUpdate, hcells, hcu, hcv, hcur, hvis, hl, overlayAt]
        simp [hvf, h1, cellsGet_cellsSet, mkFullCell]

/-- Witness for C10: overlay at the visible cursor `(0,0)` is dropped by a
diff that rewrites the `(0,0)` cell. -/
theorem cell_replacement_drops_cursor_overlay_witness :
    overlayAt (handleGridUpdate { cells := some [(0, 0, ({} : PartialCell))] }
        (updateCursor 0 0 initialTerminalState)).cells (0, 0) = false :=
  cell_replacement_drops_cursor_overlay (updateCursor 0 0 initialTerminalState)
    { cells := some [(0, 0, {})] } [(0, 0, {})] 0 0 {}
    (by decide) (by decide) (by decide) rfl (by decide) (Or.inl rfl)
